import Mathlib

/-!
Verification of the EduMind disengagement-risk pipeline.

This file shallowly embeds the parts of the repository that the checked
properties are about:

* `backend/services/service-engagement-tracker/scripts/train_disengagement_model.py`
  (class `DisengagementPredictor`): risk categorization, feature
  engineering (consecutive-low-day streaks, rolling volatility),
  training-set preparation, prediction generation, and the
  clear-then-insert persistence step.
* `backend/services/service-xai-prediction/app/Services/ml_service.py`
  (class `MLService`): risk-level calculation, SHAP-based explanation
  generation, and the degradation path when the explainer is missing or
  fails.
* `test_multiclass_model.py`: the 3-class argmax tier selection.

Numeric values are modelled with `ℚ` (exact arithmetic standing in for
Python floats); pandas NaN-able columns are modelled with `Option ℚ`.
-/

namespace EduMind

/-! ## Risk categorizer (`DisengagementPredictor.RISK_THRESHOLDS`, `categorize_risk`) -/

/-- `RISK_THRESHOLDS['high']` from `train_disengagement_model.py`. -/
def RISK_THRESHOLDS_high : ℚ := 7/10

/-- `RISK_THRESHOLDS['medium']` from `train_disengagement_model.py`. -/
def RISK_THRESHOLDS_medium : ℚ := 4/10

/-- `RISK_THRESHOLDS['low']` from `train_disengagement_model.py`. -/
def RISK_THRESHOLDS_low : ℚ := 0

/-- `DisengagementPredictor.categorize_risk`: `if prob >= 0.7: 'High'
elif prob >= 0.4: 'Medium' else: 'Low'`. -/
def categorize_risk (prob : ℚ) : String :=
  if RISK_THRESHOLDS_high ≤ prob then "High"
  else if RISK_THRESHOLDS_medium ≤ prob then "Medium"
  else "Low"

/-! ## numpy argmax (used by `MLService.predict` and `test_multiclass_model.py`) -/

/-- Behavioural model of `np.argmax`: index of the first occurrence of the
maximum value (numpy documents first-occurrence tie-breaking).  On the empty
list we return 0 (numpy raises there; no call site passes an empty vector). -/
def np_argmax : List ℚ → ℕ
  | [] => 0
  | [_] => 0
  | x :: y :: rest =>
    let r := np_argmax (y :: rest)
    if x < (y :: rest).getD r 0 then r + 1 else 0

/-- Class-name order used by `test_multiclass_model.py`:
`class_names = ["Safe", "Medium Risk", "At-Risk"]`, indexed by
`int(np.argmax([prob_safe, prob_medium, prob_at_risk]))`. -/
def multiclass_class_names : List String := ["Safe", "Medium Risk", "At-Risk"]

/-- `class_names[int(np.argmax([prob_safe, prob_medium, prob_at_risk]))]`
from `test_multiclass_model.py`. -/
def predicted_class_multiclass (probs : List ℚ) : String :=
  multiclass_class_names.getD (np_argmax probs) ""

/-! ## Persistence (`DisengagementPredictor.save_to_database`)

`save_to_database` first runs `query(...).delete()` followed by
`self.db.commit()` — the clear is committed in its own transaction —
and only then stages the new records with `bulk_save_objects` and
commits a second time.  The `except` branch runs `self.db.rollback()`
(discarding only the not-yet-committed work) and re-raises.  We model
the observable behaviour as a function of where a failure strikes:

* no failure: the table ends up holding exactly the new records;
* failure during the clear phase (before its commit): rollback restores
  the old table, the exception propagates;
* failure during the insert phase (after the clear was committed):
  rollback discards the pending inserts but the committed clear stands,
  so the table is left empty; the exception propagates. -/

/-- Where a failure strikes inside `save_to_database`. -/
inductive FailPoint
  | noFail
  | duringClear
  | duringInsert
deriving DecidableEq, Repr

/-- Observable behaviour of `DisengagementPredictor.save_to_database`:
given the previously committed prediction table and the new records,
returns the finally committed table and whether an exception propagated. -/
def save_to_database {R : Type} (old_predictions new_records : List R) :
    FailPoint → List R × Bool
  | .noFail => (new_records, false)
  | .duringClear => (old_predictions, true)
  | .duringInsert => ([], true)

/-! ## Consecutive-low-day streak (`DisengagementPredictor.engineer_features`)

The script computes, per student,
`df['low_engagement'] = (df['engagement_score'] < 40).astype(int)` and
`df['consecutive_low_days'] =
  ...transform(lambda x: x.groupby((x != x.shift()).cumsum()).cumsum())`:
the 0/1 low flags are cut into maximal runs of equal values (the
`(x != x.shift()).cumsum()` run ids; the first element always starts a
run because a pandas comparison with the shifted-in NaN is True) and the
flag is cumulatively summed within each run. -/

/-- The 0/1 `low_engagement` flag: `(engagement_score < 40).astype(int)`. -/
def lowFlag (s : ℚ) : ℕ := if s < 40 then 1 else 0

/-- Cumulative sum within maximal runs of equal values, the behaviour of
`x.groupby((x != x.shift()).cumsum()).cumsum()` on a series: the first
argument is the previous value (`none` at the series start, where the
shifted-in NaN compares unequal and starts a fresh run), the second the
running sum inside the current run. -/
def runCumsum : Option ℕ → ℕ → List ℕ → List ℕ
  | _, _, [] => []
  | prev, acc, v :: rest =>
    let a := if some v = prev then acc + v else v
    a :: runCumsum (some v) a rest

/-- The engineered `consecutive_low_days` column for one student series
(scores in chronological order), as computed by `engineer_features`. -/
def consecutive_low_days (scores : List ℚ) : List ℕ :=
  runCumsum none 0 (scores.map lowFlag)

/-- Direct streak counter: the counter after one more day, starting from
counter `c`.  Used to characterize `consecutive_low_days`. -/
def streak : ℕ → List ℚ → List ℕ
  | _, [] => []
  | c, s :: rest =>
    let c2 := if s < 40 then c + 1 else 0
    c2 :: streak c2 rest

/-! ## Rolling volatility (`DisengagementPredictor.engineer_features`)

`df['engagement_volatility_7days'] = ...transform(lambda x:
x.rolling(window=7, min_periods=1).std())`.  `Rolling.std` uses the
sample standard deviation (`ddof=1`), so a window holding a single
observation divides by zero and yields NaN — `min_periods=1` admits such
windows, it does not change the estimator.  We model the rolling *sample
variance*: the std is its square root, so the std is NaN exactly where
the variance below is `none`, and the std is 0 exactly where the
variance is `some 0`. -/

/-- Arithmetic mean of a list of rationals. -/
def listMean (l : List ℚ) : ℚ := l.sum / l.length

/-- Sample variance with `ddof=1` (pandas default for `Rolling.std`):
undefined (`none`, modelling NaN) on fewer than two observations. -/
def sampleVar (l : List ℚ) : Option ℚ :=
  if l.length < 2 then none
  else some ((l.map (fun x => (x - listMean l)^2)).sum / ((l.length : ℚ) - 1))

/-- The trailing window of up to `w` observations ending at index `i`
(window clipped at the series start, as with `min_periods=1`). -/
def windowEnd (xs : List ℚ) (i w : ℕ) : List ℚ := (xs.take (i+1)).drop (i + 1 - w)

/-- Rolling sample variance over trailing windows of up to `w`
observations, one entry per input entry. -/
def rolling_var (w : ℕ) (xs : List ℚ) : List (Option ℚ) :=
  (List.range xs.length).map (fun i => sampleVar (windowEnd xs i w))

/-- The engineered `engagement_volatility_7days` column for one student
series, up to the final square root (see module comment above):
`none` models NaN. -/
def engagement_volatility_7days (scores : List ℚ) : List (Option ℚ) :=
  rolling_var 7 scores

/-- `X.fillna(0)` from `prepare_ml_data`, applied to one NaN-able column. -/
def fillna0 (l : List (Option ℚ)) : List ℚ := l.map (fun o => o.getD 0)

/-- `shift(n)` on one student series: the series-index lag feature
(`engagement_score_lag_3days` via `shift(3)`, `engagement_score_lag_14days`
via `shift(14)`); `none` models the NaN produced for the first `n` rows. -/
def shiftLag (n : ℕ) (xs : List ℚ) : List (Option ℚ) :=
  (List.range xs.length).map (fun i => if i < n then none else some (xs.getD (i - n) 0))

/-! ## Explainer (`MLService._generate_explanation` and friends) -/

/-- One entry of the `feature_impacts` list built in
`MLService._generate_explanation`: feature name, the literal input value
for the row, and the signed SHAP contribution.  The `abs_shap` key of the
Python dict is `|shap_value|`, see `abs_shap` below. -/
structure FeatureImpact where
  name : String
  value : ℚ
  shap_value : ℚ
deriving DecidableEq, Repr, Inhabited

/-- The `abs_shap` sort key: `abs(shap_val)`. -/
def abs_shap (fi : FeatureImpact) : ℚ := |fi.shap_value|

/-- Stable insertion for descending sort by `abs_shap`; an element walks
past exactly the entries with strictly larger key, so equal-key entries
keep their original order — the stability guarantee of Python
`list.sort(key=..., reverse=True)`. -/
def insertByAbsShap (x : FeatureImpact) : List FeatureImpact → List FeatureImpact
  | [] => [x]
  | y :: ys => if abs_shap x < abs_shap y then y :: insertByAbsShap x ys else x :: y :: ys

/-- `feature_impacts.sort(key=lambda x: x["abs_shap"], reverse=True)`:
stable descending sort by absolute SHAP value. -/
def sortByAbsShap : List FeatureImpact → List FeatureImpact
  | [] => []
  | x :: xs => insertByAbsShap x (sortByAbsShap xs)

/-- Python `str.title()` on ASCII text: an alphabetic character is
uppercased when the preceding character is not alphabetic and lowercased
otherwise.  The flag carries whether the previous character was
alphabetic. -/
def titleAux : Bool → List Char → List Char
  | _, [] => []
  | prevAlpha, c :: cs =>
    if c.isAlpha then (if prevAlpha then c.toLower else c.toUpper) :: titleAux true cs
    else c :: titleAux false cs

/-- Python `str.title()` (restricted to the ASCII feature names that occur
in this repository). -/
def pyTitle (s : String) : String := String.mk (titleAux false s.toList)

/-- `name.replace('_', ' ')`. -/
def underscoresToSpaces (s : String) : String :=
  String.mk (s.toList.map (fun c => if c = '_' then ' ' else c))

/-- The humanization applied to feature names before insertion into the
factor strings: `impact['name'].replace('_', ' ').title()`. -/
def humanize (s : String) : String := pyTitle (underscoresToSpaces s)

/-- Rendering of a rational as text, standing in for Python float
formatting inside f-strings (the digits are not the subject of any
checked property). -/
def fmtNum (q : ℚ) : String := toString q

/-- One emitted factor string:
`f"\x7bimpact['name'].replace('_',' ').title()\x7d: \x7bimpact['value']\x7d"`. -/
def factorString (fi : FeatureImpact) : String :=
  humanize fi.name ++ ": " ++ fmtNum fi.value

/-- `f"\x7bprobability:.1%\x7d"`, abstracted (see `fmtNum`). -/
def fmtPct (p : ℚ) : String := fmtNum (p * 100) ++ "%"

/-- `MLService._build_natural_language_explanation`: predicted class, a
coarse confidence adjective, the probability, and the names of at most 3
positive and 3 negative top features (names with underscores replaced by
spaces, no title-casing here, exactly as in the source). -/
def build_explanation (predicted_class : String) (probability : ℚ)
    (top_features : List FeatureImpact) : String :=
  let conf := if 8/10 ≤ probability then "high"
              else if 6/10 ≤ probability then "moderate" else "low"
  let pos := top_features.filter (fun f => decide (0 < f.shap_value))
  let neg := top_features.filter (fun f => decide (¬ 0 < f.shap_value))
  "The student is predicted to " ++ predicted_class ++ " with " ++ conf ++
    " confidence (" ++ fmtPct probability ++ " probability). " ++
    (if pos.isEmpty then "" else
      "Key positive factors: " ++
        String.intercalate ", " ((pos.take 3).map (fun f => underscoresToSpaces f.name)) ++ ". ") ++
    (if neg.isEmpty then "" else
      "Areas of concern: " ++
        String.intercalate ", " ((neg.take 3).map (fun f => underscoresToSpaces f.name)) ++ ".")

/-- `MLService._generate_explanation`, minus the sentence (built
separately by `build_explanation`): sorts the impacts by absolute SHAP
value, keeps the top 5, and splits the loop output into
`top_features`, `confidence_factors` (entries with `shap_value > 0`) and
`risk_factors` (the `else` branch of the loop, i.e. `shap_value <= 0`). -/
def generate_explanation (impacts : List FeatureImpact) :
    List FeatureImpact × List String × List String :=
  let top5 := (sortByAbsShap impacts).take 5
  let conf := (top5.filter (fun fi => decide (0 < fi.shap_value))).map factorString
  let risk := (top5.filter (fun fi => decide (¬ 0 < fi.shap_value))).map factorString
  (top5, conf, risk)

/-! ## `MLService.predict` (service-xai-prediction) -/

/-- The `RiskLevel` enum of the XAI prediction service. -/
inductive RiskLevel
  | LOW
  | MEDIUM
  | HIGH
  | CRITICAL
deriving DecidableEq, Repr, Inhabited

/-- `MLService._calculate_risk_level`. -/
def calculate_risk_level (predicted_class : String) (probability : ℚ) : RiskLevel :=
  if predicted_class = "Distinction" ∨ predicted_class = "Pass" then
    if 8/10 ≤ probability then .LOW
    else if 6/10 ≤ probability then .MEDIUM
    else .HIGH
  else if predicted_class = "Fail" then
    if 7/10 ≤ probability then .CRITICAL
    else if 5/10 ≤ probability then .HIGH
    else .MEDIUM
  else if predicted_class = "Withdrawn" then .CRITICAL
  else .MEDIUM

/-- The fields of the `PredictionResult` + `Explanation` pair returned by
`MLService.predict` that the checked properties talk about. -/
structure PredictOut where
  predicted_class : String
  probability : ℚ
  probabilities : List (String × ℚ)
  risk_level : RiskLevel
  shap_values : List (String × ℚ)
  top_features : List FeatureImpact
  natural_language_explanation : String
  confidence_factors : List String
  risk_factors : List String
deriving DecidableEq, Repr, Inhabited

/-- The default explanation sentence set before the SHAP block:
`f"Predicted outcome: \x7bpredicted_class\x7d (\x7bprobability:.1%\x7d)"`. -/
def bare_explanation (predicted_class : String) (probability : ℚ) : String :=
  "Predicted outcome: " ++ predicted_class ++ " (" ++ fmtPct probability ++ ")"

/-- `request.features.get(feature_name, 0.0)`: dictionary lookup with a
0 default. -/
def featGet (features : List (String × ℚ)) (n : String) : ℚ :=
  ((features.find? (fun p => decide (p.1 = n))).map Prod.snd).getD 0

/-- `MLService.predict`, downstream of `predict_proba`.

* `labels` is the class order of the label encoder
  (`inverse_transform`), `proba` the output of
  `self.model.predict_proba(scaled_features)[0]`.
* `explainer = none` models `self.explainer is None`
  (`_initialize_explainer` caught an exception and stored `None`);
  `explainer = some (.error e)` models `self.explainer.shap_values`
  raising — caught by the inner `try`, leaving the defaults in place;
  `explainer = some (.ok sv)` models a successful attribution with
  per-feature SHAP values `sv` (aligned with `feature_names`).

The function is total: an attribution failure never escapes `predict`. -/
def MLService_predict (labels feature_names : List String)
    (features : List (String × ℚ)) (proba : List ℚ)
    (explainer : Option (Except String (List ℚ))) : PredictOut :=
  let idx := np_argmax proba
  let predicted_class := labels.getD idx ""
  let probability := proba.getD idx 0
  let all_probabilities := labels.zip proba
  let risk_level := calculate_risk_level predicted_class probability
  match explainer with
  | some (.ok sv) =>
      let impacts := (feature_names.zip sv).map
        (fun p => { name := p.1, value := featGet features p.1, shap_value := p.2 })
      let ex := generate_explanation impacts
      { predicted_class := predicted_class, probability := probability,
        probabilities := all_probabilities, risk_level := risk_level,
        shap_values := feature_names.zip sv,
        top_features := ex.1,
        natural_language_explanation := build_explanation predicted_class probability ex.1,
        confidence_factors := ex.2.1, risk_factors := ex.2.2 }
  | _ =>
      { predicted_class := predicted_class, probability := probability,
        probabilities := all_probabilities, risk_level := risk_level,
        shap_values := [], top_features := [],
        natural_language_explanation := bare_explanation predicted_class probability,
        confidence_factors := [], risk_factors := [] }

/-! ## The batch pipeline (`train_disengagement_model.py`)

One loaded row of the `engagement_scores` query (per student, per day,
ordered by date).  The lag and rolling-average columns are nullable
database columns supplied by the upstream scoring job (external to this
repository); `none` models SQL NULL / pandas NaN.  Loaded columns that no
engineered feature or saved record reads (`engagement_level`) are
omitted.  Dates are abstracted to naturals (only equality and order
matter). -/

structure ScoreRow where
  date : ℕ
  login_score : ℚ
  session_score : ℚ
  interaction_score : ℚ
  forum_score : ℚ
  assignment_score : ℚ
  engagement_score : ℚ
  engagement_trend : String
  engagement_score_lag_1day : Option ℚ
  engagement_score_lag_7days : Option ℚ
  rolling_avg_7days : Option ℚ
  rolling_avg_30days : Option ℚ
deriving DecidableEq, Repr, Inhabited

/-- One row after `engineer_features`, restricted to the columns that
`prepare_ml_data`, `generate_predictions` and `save_to_database` read.
`engagement_volatility_7days` carries the rolling sample variance (its
square root is the std the script stores; the distinction is absorbed
into the opaque classifier, see `rolling_var`).  The two `_rate` fields
embed the source columns `login_to_session` / `interaction_to_forum`
component quotients (`login_score/(session_score+1)` and
`interaction_score/(forum_score+1)`). -/
structure FeatureRow where
  date : ℕ
  login_score : ℚ
  session_score : ℚ
  interaction_score : ℚ
  forum_score : ℚ
  assignment_score : ℚ
  engagement_score : ℚ
  engagement_score_lag_1day : Option ℚ
  engagement_score_lag_7days : Option ℚ
  engagement_score_lag_3days : Option ℚ
  engagement_score_lag_14days : Option ℚ
  rolling_avg_7days : Option ℚ
  rolling_avg_30days : Option ℚ
  engagement_volatility_7days : Option ℚ
  is_declining : ℕ
  is_improving : ℕ
  is_stable : ℕ
  login_to_session_rate : ℚ
  interaction_to_forum_rate : ℚ
  days_since_start : ℕ
  cumulative_avg_score : ℚ
  consecutive_low_days : ℕ
deriving DecidableEq, Repr, Inhabited

/-- `DisengagementPredictor.engineer_features` for one student series
(the script groups by `student_id` after sorting by
`['student_id', 'date']`; each group is processed independently, which
we model by engineering one student series at a time). -/
def engineer_features (rows : List ScoreRow) : List FeatureRow :=
  let scores := rows.map (fun r => r.engagement_score)
  let lag3 := shiftLag 3 scores
  let lag14 := shiftLag 14 scores
  let vol := rolling_var 7 scores
  let streaks := consecutive_low_days scores
  (List.range rows.length).map (fun i =>
    let r := rows.getD i default
    { date := r.date
      login_score := r.login_score
      session_score := r.session_score
      interaction_score := r.interaction_score
      forum_score := r.forum_score
      assignment_score := r.assignment_score
      engagement_score := r.engagement_score
      engagement_score_lag_1day := r.engagement_score_lag_1day
      engagement_score_lag_7days := r.engagement_score_lag_7days
      engagement_score_lag_3days := lag3.getD i none
      engagement_score_lag_14days := lag14.getD i none
      rolling_avg_7days := r.rolling_avg_7days
      rolling_avg_30days := r.rolling_avg_30days
      engagement_volatility_7days := vol.getD i none
      is_declining := if r.engagement_trend = "Declining" then 1 else 0
      is_improving := if r.engagement_trend = "Improving" then 1 else 0
      is_stable := if r.engagement_trend = "Stable" then 1 else 0
      login_to_session_rate := r.login_score / (r.session_score + 1)
      interaction_to_forum_rate := r.interaction_score / (r.forum_score + 1)
      days_since_start := i + 1
      cumulative_avg_score := (scores.take (i+1)).sum / ((i : ℚ) + 1)
      consecutive_low_days := streaks.getD i 0 })

/-- `AT_RISK_THRESHOLD = 30`; the training label
`df['at_risk'] = (df['engagement_score'] < 30).astype(int)`. -/
def at_risk_label (fr : FeatureRow) : Bool := decide (fr.engagement_score < 30)

/-- The numeric feature vector handed to the classifier: the
`feature_columns` of `prepare_ml_data` after `X.fillna(0)` (every
remaining NaN imputed as 0; naturals cast to ℚ as pandas casts the 0/1
flags and counters to floats). -/
structure XRow where
  login_score : ℚ
  session_score : ℚ
  interaction_score : ℚ
  forum_score : ℚ
  assignment_score : ℚ
  engagement_score : ℚ
  engagement_score_lag_1day : ℚ
  engagement_score_lag_7days : ℚ
  engagement_score_lag_3days : ℚ
  engagement_score_lag_14days : ℚ
  rolling_avg_7days : ℚ
  rolling_avg_30days : ℚ
  engagement_volatility_7days : ℚ
  is_declining : ℚ
  is_improving : ℚ
  login_to_session_rate : ℚ
  interaction_to_forum_rate : ℚ
  consecutive_low_days : ℚ
  days_since_start : ℚ
  cumulative_avg_score : ℚ
deriving DecidableEq, Repr, Inhabited

/-- `df_ml[feature_columns]` with `fillna(0)` applied, for one row. -/
def toXRow (fr : FeatureRow) : XRow :=
  { login_score := fr.login_score
    session_score := fr.session_score
    interaction_score := fr.interaction_score
    forum_score := fr.forum_score
    assignment_score := fr.assignment_score
    engagement_score := fr.engagement_score
    engagement_score_lag_1day := fr.engagement_score_lag_1day.getD 0
    engagement_score_lag_7days := fr.engagement_score_lag_7days.getD 0
    engagement_score_lag_3days := fr.engagement_score_lag_3days.getD 0
    engagement_score_lag_14days := fr.engagement_score_lag_14days.getD 0
    rolling_avg_7days := fr.rolling_avg_7days.getD 0
    rolling_avg_30days := fr.rolling_avg_30days.getD 0
    engagement_volatility_7days := fr.engagement_volatility_7days.getD 0
    is_declining := fr.is_declining
    is_improving := fr.is_improving
    login_to_session_rate := fr.login_to_session_rate
    interaction_to_forum_rate := fr.interaction_to_forum_rate
    consecutive_low_days := fr.consecutive_low_days
    days_since_start := fr.days_since_start
    cumulative_avg_score := fr.cumulative_avg_score }

/-- The dropna step of `prepare_ml_data`:
`df.dropna(subset=['engagement_score_lag_7days', 'rolling_avg_7days'])`
applied after `engineer_features`, for one student series.  These are the
rows that form `df_ml` — both the training pool and the rows scored by
`generate_predictions`. -/
def prepare_ml_rows (rows : List ScoreRow) : List FeatureRow :=
  (engineer_features rows).filter
    (fun fr => fr.engagement_score_lag_7days.isSome && fr.rolling_avg_7days.isSome)

/-- Concatenating map (the per-student `groupby` results concatenated in
student order, as the `ORDER BY student_id, date` query yields them). -/
def catMap {α β : Type} (f : α → List β) : List α → List β
  | [] => []
  | x :: xs => f x ++ catMap f xs

/-- The `(X, y)` training pool of `prepare_ml_data` over all students:
one `(feature vector, at-risk label)` pair per surviving row. -/
def training_set (students : List (ℕ × List ScoreRow)) : List (XRow × Bool) :=
  catMap (fun sr => (prepare_ml_rows sr.2).map (fun fr => (toXRow fr, at_risk_label fr))) students

/-- A trained classifier, per the contract of §4.2 of the spec and the
script: an opaque deterministic estimator exposing a positive-class
probability per feature vector (`predict_proba(X)[:, 1]`) and a global
feature-importance ranking (`feature_importance`, already sorted by
`train_model`). -/
structure TrainedModel where
  proba : XRow → ℚ
  importance : List (String × ℚ)

/-- The rule-based `contributing_factors` map assembled in
`save_to_database`. -/
structure ContribFactors where
  low_engagement_score : Bool
  declining_trend : Bool
  low_session_activity : Bool
  consecutive_low_days : ℕ
deriving DecidableEq, Repr, Inhabited

/-- One row of the `disengagement_predictions` table as written by
`save_to_database` (the `db_columns` list).  `created_at` is the
`datetime.now()` timestamp, abstracted to a natural number. -/
structure PredictionRecord where
  student_id : ℕ
  prediction_date : ℕ
  at_risk : Bool
  risk_probability : ℚ
  risk_level : String
  contributing_factors : ContribFactors
  feature_importance : List (String × ℚ)
  model_version : String
  model_type : String
  confidence_score : ℚ
  prediction_horizon_days : ℕ
  created_at : ℕ
deriving DecidableEq, Repr, Inhabited

/-- One prediction record as assembled by `generate_predictions` plus the
column wiring of `save_to_database`:
`at_risk` is the model class prediction (for a binary sklearn classifier,
the argmax of `[1-p, p]`, i.e. `1/2 < p` with ties to class 0),
`confidence_score = max(p, 1-p)`, `risk_level = categorize_risk p`,
`feature_importance` the top 5 of the model ranking, fixed metadata
strings, `prediction_horizon_days = 7`, `created_at = now`. -/
def mkPrediction (sid : ℕ) (m : TrainedModel) (now : ℕ) (fr : FeatureRow) : PredictionRecord :=
  let p := m.proba (toXRow fr)
  { student_id := sid
    prediction_date := fr.date
    at_risk := decide (1/2 < p)
    risk_probability := p
    risk_level := categorize_risk p
    contributing_factors :=
      { low_engagement_score := decide (fr.engagement_score < 40)
        declining_trend := decide (fr.is_declining = 1)
        low_session_activity := decide (fr.session_score < 30)
        consecutive_low_days := fr.consecutive_low_days }
    feature_importance := m.importance.take 5
    model_version := "v1.0_GradientBoosting"
    model_type := "GradientBoostingClassifier"
    confidence_score := max p (1 - p)
    prediction_horizon_days := 7
    created_at := now }

/-- The full batch (`main`): engineer features, prepare the ML pool,
fit (the seeded `train_test_split` with `random_state=42` plus
`GradientBoostingClassifier(random_state=42).fit` are absorbed into the
deterministic `fit` parameter, per the opaque-estimator contract), then
`generate_predictions` over the prepared rows — the record set handed to
`save_to_database`. -/
def run_pipeline (fit : List (XRow × Bool) → TrainedModel)
    (students : List (ℕ × List ScoreRow)) (now : ℕ) : List PredictionRecord :=
  let m := fit (training_set students)
  catMap (fun sr => (prepare_ml_rows sr.2).map (mkPrediction sr.1 m now)) students

/-- Erase the `created_at` timestamp of a saved record (the field the
idempotence property excludes). -/
def stripTimestamp (r : PredictionRecord) : PredictionRecord :=
  { r with created_at := 0 }

/-! ## Helper lemmas -/

/-- Unfolding `np_argmax` on a two-or-more element list. -/
lemma np_argmax_cons_cons (x y : ℚ) (rest : List ℚ) :
    np_argmax (x :: y :: rest) =
      if x < (y :: rest).getD (np_argmax (y :: rest)) 0
      then np_argmax (y :: rest) + 1 else 0 := rfl

lemma np_argmax_lt_length (l : List ℚ) (h : l ≠ []) : np_argmax l < l.length := by
  induction l with
  | nil => simp at h
  | cons x ys ih =>
    cases ys with
    | nil => simp [np_argmax]
    | cons y rest =>
      have h2 : np_argmax (y :: rest) < (y :: rest).length := ih (by simp)
      rw [np_argmax_cons_cons]
      by_cases hx : x < (y :: rest).getD (np_argmax (y :: rest)) 0
      · rw [if_pos hx]
        simpa using Nat.succ_lt_succ h2
      · rw [if_neg hx]
        simp

lemma np_argmax_is_max (l : List ℚ) (j : ℕ) (hj : j < l.length) :
    l.getD j 0 ≤ l.getD (np_argmax l) 0 := by
  induction l generalizing j with
  | nil => simp at hj
  | cons x ys ih =>
    cases ys with
    | nil =>
      simp [Nat.lt_one_iff] at hj
      subst hj
      simp [np_argmax]
    | cons y rest =>
      rw [np_argmax_cons_cons]
      by_cases hx : x < (y :: rest).getD (np_argmax (y :: rest)) 0
      · rw [if_pos hx]
        cases j with
        | zero => simpa using le_of_lt hx
        | succ k =>
          have hk : k < (y :: rest).length := by simpa using hj
          simpa using ih k hk
      · rw [if_neg hx]
        push_neg at hx
        cases j with
        | zero => simp
        | succ k =>
          have hk : k < (y :: rest).length := by simpa using hj
          have hle := ih k hk
          simp only [List.getD_cons_succ, List.getD_cons_zero]
          exact le_trans hle hx

lemma np_argmax_first_max (l : List ℚ) (j : ℕ) (hj : j < np_argmax l) :
    l.getD j 0 < l.getD (np_argmax l) 0 := by
  induction l generalizing j with
  | nil => simp [np_argmax] at hj
  | cons x ys ih =>
    cases ys with
    | nil => simp [np_argmax] at hj
    | cons y rest =>
      rw [np_argmax_cons_cons] at hj ⊢
      by_cases hx : x < (y :: rest).getD (np_argmax (y :: rest)) 0
      · rw [if_pos hx] at hj ⊢
        cases j with
        | zero => simpa using hx
        | succ k =>
          have hk : k < np_argmax (y :: rest) := by omega
          simpa using ih k hk
      · rw [if_neg hx] at hj
        omega

/-! ## C1 — atomicity of the prediction save -/

/-- C1 counterexample: with one previously persisted record and a failure
during the insert phase, `save_to_database` propagates the error but
leaves the table empty — the previously persisted prediction set does
NOT remain intact (the clear was already committed on its own). -/
theorem save_to_database_not_atomic :
    (save_to_database ([7] : List ℕ) [8] FailPoint.duringInsert).2 = true
  ∧ (save_to_database ([7] : List ℕ) [8] FailPoint.duringInsert).1 ≠ [7] := by
  decide

/-- C1 amended: any failure inside `save_to_database` propagates; a
failure during the clear phase leaves the previous prediction set
intact, but a failure during the insert phase happens after the clear
was committed, so the rollback only discards the pending inserts and the
table is left empty (the prior set is lost). -/
theorem save_to_database_error_behaviour {R : Type} (old_predictions new_records : List R)
    (fp : FailPoint) (h : fp ≠ FailPoint.noFail) :
    (save_to_database old_predictions new_records fp).2 = true
  ∧ (fp = FailPoint.duringClear →
      (save_to_database old_predictions new_records fp).1 = old_predictions)
  ∧ (fp = FailPoint.duringInsert →
      (save_to_database old_predictions new_records fp).1 = []) := by
  cases fp <;> simp_all [save_to_database]

/-- Witness for `save_to_database_error_behaviour` at a concrete failing
input. -/
theorem save_to_database_error_behaviour_witness :
    FailPoint.duringInsert ≠ FailPoint.noFail
  ∧ ((save_to_database ([7] : List ℕ) [8] FailPoint.duringInsert).2 = true
     ∧ (FailPoint.duringInsert = FailPoint.duringClear →
         (save_to_database ([7] : List ℕ) [8] FailPoint.duringInsert).1 = [7])
     ∧ (FailPoint.duringInsert = FailPoint.duringInsert →
         (save_to_database ([7] : List ℕ) [8] FailPoint.duringInsert).1 = [])) :=
  ⟨by decide, save_to_database_error_behaviour [7] [8] FailPoint.duringInsert (by decide)⟩

/-! ## C2 — risk tier partition -/

/-- C2: for every probability in [0,1], `categorize_risk` realizes the
three bands with inclusive lower bounds and no gaps or overlaps
(each tier holds exactly on its band), and the four boundary examples
evaluate as the spec states. -/
theorem categorize_risk_partition (p : ℚ) (_h0 : 0 ≤ p) (_h1 : p ≤ 1) :
    (categorize_risk p = "High" ↔ 7/10 ≤ p)
  ∧ (categorize_risk p = "Medium" ↔ 4/10 ≤ p ∧ p < 7/10)
  ∧ (categorize_risk p = "Low" ↔ p < 4/10)
  ∧ categorize_risk (39/100) = "Low"
  ∧ categorize_risk (40/100) = "Medium"
  ∧ categorize_risk (699/1000) = "Medium"
  ∧ categorize_risk (7/10) = "High" := by
  refine ⟨?_, ?_, ?_,
    by norm_num [categorize_risk, RISK_THRESHOLDS_high, RISK_THRESHOLDS_medium],
    by norm_num [categorize_risk, RISK_THRESHOLDS_high, RISK_THRESHOLDS_medium],
    by norm_num [categorize_risk, RISK_THRESHOLDS_high, RISK_THRESHOLDS_medium],
    by norm_num [categorize_risk, RISK_THRESHOLDS_high, RISK_THRESHOLDS_medium]⟩ <;>
  · unfold categorize_risk RISK_THRESHOLDS_high RISK_THRESHOLDS_medium
    split_ifs with hA hB <;> simp_all <;> linarith

/-- Witness for `categorize_risk_partition` at `p = 39/100`. -/
theorem categorize_risk_partition_witness :
    (0:ℚ) ≤ 39/100 ∧ (39/100:ℚ) ≤ 1
  ∧ ((categorize_risk (39/100) = "High" ↔ 7/10 ≤ (39/100:ℚ))
     ∧ (categorize_risk (39/100) = "Medium" ↔ 4/10 ≤ (39/100:ℚ) ∧ (39/100:ℚ) < 7/10)
     ∧ (categorize_risk (39/100) = "Low" ↔ (39/100:ℚ) < 4/10)
     ∧ categorize_risk (39/100) = "Low"
     ∧ categorize_risk (40/100) = "Medium"
     ∧ categorize_risk (699/1000) = "Medium"
     ∧ categorize_risk (7/10) = "High") :=
  ⟨by norm_num, by norm_num, categorize_risk_partition (39/100) (by norm_num) (by norm_num)⟩

/-! ## C4 — rolling std over a single observation -/

/-- C4 counterexample: for a student with a single day of history the
engineered `engagement_volatility_7days` entry is NaN (`none`), not 0 —
pandas' `Rolling.std` uses the sample estimator (`ddof=1`), which is
undefined on one observation. -/
theorem engagement_volatility_single_day_nan :
    engagement_volatility_7days [50] = [none] ∧ (none : Option ℚ) ≠ some 0 := by
  constructor
  · rfl
  · decide

/-- C4 amended: over a trailing window of size 1 (the first row of a
student series) the rolling std is undefined (NaN), never 0; the value
only becomes 0 after `prepare_ml_data` imputes the NaN via `fillna(0)`
on the model-input matrix. -/
theorem engagement_volatility_first_row (scores : List ℚ) (h : scores ≠ []) :
    (engagement_volatility_7days scores).head? = some none
  ∧ (fillna0 (engagement_volatility_7days scores)).head? = some 0 := by
  obtain ⟨s, rest, rfl⟩ := List.exists_cons_of_ne_nil h
  constructor <;>
    simp [engagement_volatility_7days, rolling_var, fillna0,
      List.range_succ_eq_map, windowEnd, sampleVar]

/-- Witness for `engagement_volatility_first_row` on a one-day series. -/
theorem engagement_volatility_first_row_witness :
    ([50] : List ℚ) ≠ []
  ∧ ((engagement_volatility_7days [50]).head? = some none
     ∧ (fillna0 (engagement_volatility_7days [50])).head? = some 0) :=
  ⟨by decide, engagement_volatility_first_row [50] (by decide)⟩

/-! ## C6 — 3-class argmax tie-breaking -/

/-- C6 counterexample: with `prob_safe = prob_at_risk = 1/2` exactly
equal, the code picks index 0 ("Safe", the lowest-risk class), not the
higher-risk "At-Risk" the claim requires. -/
theorem multiclass_tie_prefers_lower_risk :
    predicted_class_multiclass [1/2, 0, 1/2] = "Safe"
  ∧ np_argmax [1/2, 0, 1/2] = 0
  ∧ ("Safe" : String) ≠ "At-Risk" := by
  have h : np_argmax [1/2, 0, 1/2] = 0 := by
    norm_num [np_argmax]
  refine ⟨?_, h, by decide⟩
  rw [predicted_class_multiclass, h]
  rfl

/-- C6 amended: the predicted tier is the argmax over the class
probabilities, and on exactly equal probabilities the smallest class
index wins (`np.argmax` first-occurrence semantics) — the lower-risk
class in the `["Safe", "Medium Risk", "At-Risk"]` order; there is no
floating-point tolerance window. -/
theorem multiclass_argmax_first (probs : List ℚ) (j : ℕ) (h : probs ≠ [])
    (hj : j < probs.length) :
    np_argmax probs < probs.length
  ∧ predicted_class_multiclass probs = multiclass_class_names.getD (np_argmax probs) ""
  ∧ probs.getD j 0 ≤ probs.getD (np_argmax probs) 0
  ∧ (j < np_argmax probs → probs.getD j 0 < probs.getD (np_argmax probs) 0) :=
  ⟨np_argmax_lt_length probs h, rfl, np_argmax_is_max probs j hj,
   fun hjm => np_argmax_first_max probs j hjm⟩

/-- Witness for `multiclass_argmax_first` on the tie vector. -/
theorem multiclass_argmax_first_witness :
    ([1/2, 0, 1/2] : List ℚ) ≠ []
  ∧ (0:ℕ) < ([1/2, 0, 1/2] : List ℚ).length
  ∧ (np_argmax [1/2, 0, 1/2] < ([1/2, 0, 1/2] : List ℚ).length
     ∧ predicted_class_multiclass [1/2, 0, 1/2]
         = multiclass_class_names.getD (np_argmax [1/2, 0, 1/2]) ""
     ∧ ([1/2, 0, 1/2] : List ℚ).getD 0 0
         ≤ ([1/2, 0, 1/2] : List ℚ).getD (np_argmax [1/2, 0, 1/2]) 0
     ∧ (0 < np_argmax [1/2, 0, 1/2] →
         ([1/2, 0, 1/2] : List ℚ).getD 0 0
           < ([1/2, 0, 1/2] : List ℚ).getD (np_argmax [1/2, 0, 1/2]) 0)) :=
  ⟨by simp, by simp, multiclass_argmax_first [1/2, 0, 1/2] 0 (by simp) (by simp)⟩

/-! ## C3 — the consecutive-low-days streak -/

lemma streak_length (c : ℕ) (scores : List ℚ) : (streak c scores).length = scores.length := by
  induction scores generalizing c with
  | nil => rfl
  | cons s rest ih => simp [streak, ih]

/-- The pandas run-cumsum trick applied to the 0/1 low flags computes the
plain streak counter. -/
lemma runCumsum_lowFlag_eq_streak (scores : List ℚ) :
    ∀ (c acc : ℕ) (p : Option ℕ),
      (p = some 1 → acc = c) → (p ≠ some 1 → acc = 0 ∧ c = 0) →
      runCumsum p acc (scores.map lowFlag) = streak c scores := by
  induction scores with
  | nil => intro c acc p _ _; rfl
  | cons s rest ih =>
    intro c acc p h1 h2
    simp only [List.map_cons, runCumsum, streak]
    by_cases hs : s < 40
    · have hf : lowFlag s = 1 := by simp [lowFlag, hs]
      rw [hf, if_pos hs]
      by_cases hp : p = some 1
      · subst hp
        have hacc : acc = c := h1 rfl
        subst hacc
        rw [if_pos rfl]
        exact congrArg _ (ih (acc + 1) (acc + 1) (some 1) (fun _ => rfl)
          (fun h => absurd rfl h))
      · obtain ⟨hacc, hc⟩ := h2 hp
        subst hacc; subst hc
        rw [if_neg (fun h => hp h.symm)]
        simpa using ih 1 1 (some 1) (fun _ => rfl) (fun h => absurd rfl h)
    · have hf : lowFlag s = 0 := by simp [lowFlag, hs]
      rw [hf, if_neg hs]
      have ha : (if some 0 = p then acc + 0 else 0) = 0 := by
        split_ifs with h
        · have := (h2 (fun h1eq => by rw [h1eq] at h; simp at h)).1
          omega
        · rfl
      rw [ha]
      exact congrArg _ (ih 0 0 (some 0) (fun h => by simp at h) (fun _ => ⟨rfl, rfl⟩))

lemma consecutive_low_days_eq_streak (scores : List ℚ) :
    consecutive_low_days scores = streak 0 scores :=
  runCumsum_lowFlag_eq_streak scores 0 0 none (fun _ => rfl) (fun _ => ⟨rfl, rfl⟩)

/-- Per-index behaviour of the streak counter: 0 on a day at or above 40,
and on a low day either a fresh 1 (series start or previous day high) or
the previous counter plus one. -/
lemma streak_getD (scores : List ℚ) :
    ∀ (c i : ℕ), i < scores.length →
      (40 ≤ scores.getD i 0 → (streak c scores).getD i 0 = 0)
    ∧ (scores.getD i 0 < 40 →
        (streak c scores).getD i 0 =
          if i = 0 then c + 1
          else if 40 ≤ scores.getD (i - 1) 0 then 1
          else (streak c scores).getD (i - 1) 0 + 1) := by
  induction scores with
  | nil => intro c i hi; simp at hi
  | cons s rest ih =>
    intro c i hi
    have hstreak : streak c (s :: rest) =
        (if s < 40 then c + 1 else 0) :: streak (if s < 40 then c + 1 else 0) rest := by
      simp [streak]
    cases i with
    | zero =>
      constructor
      · intro h40
        simp only [List.getD_cons_zero] at h40 ⊢
        rw [hstreak]
        simp [not_lt.mpr h40]
      · intro hlt
        simp only [List.getD_cons_zero] at hlt ⊢
        rw [hstreak]
        simp [hlt]
    | succ j =>
      have hj : j < rest.length := by simpa using hi
      constructor
      · intro h40
        rw [hstreak]
        simp only [List.getD_cons_succ] at h40 ⊢
        exact (ih _ j hj).1 h40
      · intro hlt
        simp only [List.getD_cons_succ] at hlt
        have IH := (ih (if s < 40 then c + 1 else 0) j hj).2 hlt
        rw [hstreak]
        simp only [List.getD_cons_succ, Nat.succ_ne_zero, if_false, Nat.succ_sub_one]
        cases j with
        | zero =>
          simp only [List.getD_cons_zero]
          rw [IH]
          by_cases h40 : 40 ≤ s
          · simp [h40, not_lt.mpr h40]
          · simp [h40]
        | succ k =>
          simp only [List.getD_cons_succ]
          rw [IH]
          simp

/-- C3: for a chronologically ordered per-student score series, the
engineered `consecutive_low_days` counter is 0 on every day with
composite score at or above 40 (an exact reset), is 1 on the first day of
a run below 40, increments by exactly 1 on each further consecutive day
below 40, and is therefore non-decreasing inside a run of days below
40. -/
theorem consecutive_low_days_spec (scores : List ℚ) (i : ℕ) (hi : i < scores.length) :
    (consecutive_low_days scores).length = scores.length
  ∧ (40 ≤ scores.getD i 0 → (consecutive_low_days scores).getD i 0 = 0)
  ∧ (scores.getD i 0 < 40 →
      (consecutive_low_days scores).getD i 0 =
        if i = 0 then 1
        else if 40 ≤ scores.getD (i - 1) 0 then 1
        else (consecutive_low_days scores).getD (i - 1) 0 + 1)
  ∧ (scores.getD i 0 < 40 → i ≠ 0 → ¬ 40 ≤ scores.getD (i - 1) 0 →
      (consecutive_low_days scores).getD (i - 1) 0
        ≤ (consecutive_low_days scores).getD i 0) := by
  rw [consecutive_low_days_eq_streak]
  have h := streak_getD scores 0 i hi
  refine ⟨streak_length 0 scores, h.1, ?_, ?_⟩
  · intro hlt
    rw [h.2 hlt]
  · intro hlt hne h40
    rw [h.2 hlt, if_neg hne, if_neg h40]
    exact Nat.le_succ _

/-- Witness for `consecutive_low_days_spec` on a concrete series at
index 2 (third day, inside a low run). -/
theorem consecutive_low_days_spec_witness :
    (2 < ([50, 30, 20, 45, 10] : List ℚ).length)
  ∧ ((consecutive_low_days [50, 30, 20, 45, 10]).length
       = ([50, 30, 20, 45, 10] : List ℚ).length
     ∧ (40 ≤ ([50, 30, 20, 45, 10] : List ℚ).getD 2 0 →
         (consecutive_low_days [50, 30, 20, 45, 10]).getD 2 0 = 0)
     ∧ (([50, 30, 20, 45, 10] : List ℚ).getD 2 0 < 40 →
         (consecutive_low_days [50, 30, 20, 45, 10]).getD 2 0 =
           if (2:ℕ) = 0 then 1
           else if 40 ≤ ([50, 30, 20, 45, 10] : List ℚ).getD (2 - 1) 0 then 1
           else (consecutive_low_days [50, 30, 20, 45, 10]).getD (2 - 1) 0 + 1)
     ∧ (([50, 30, 20, 45, 10] : List ℚ).getD 2 0 < 40 → (2:ℕ) ≠ 0 →
         ¬ 40 ≤ ([50, 30, 20, 45, 10] : List ℚ).getD (2 - 1) 0 →
         (consecutive_low_days [50, 30, 20, 45, 10]).getD (2 - 1) 0
           ≤ (consecutive_low_days [50, 30, 20, 45, 10]).getD 2 0)) :=
  ⟨by simp, consecutive_low_days_spec [50, 30, 20, 45, 10] 2 (by simp)⟩

/-! ## C7 — explainer factor lists -/

lemma mem_insertByAbsShap {x a : FeatureImpact} {l : List FeatureImpact} :
    a ∈ insertByAbsShap x l ↔ a = x ∨ a ∈ l := by
  induction l with
  | nil => simp [insertByAbsShap]
  | cons y ys ih =>
    simp only [insertByAbsShap]
    split_ifs with h
    · simp only [List.mem_cons, ih]
      tauto
    · simp only [List.mem_cons]

lemma mem_sortByAbsShap {a : FeatureImpact} {l : List FeatureImpact} :
    a ∈ sortByAbsShap l ↔ a ∈ l := by
  induction l with
  | nil => simp [sortByAbsShap]
  | cons x xs ih => simp [sortByAbsShap, mem_insertByAbsShap, ih]

/-- Concrete input for the C7 counterexample: five features, all with
positive SHAP contribution. -/
def five_positive_impacts : List FeatureImpact :=
  [{ name := "study_hours", value := 10, shap_value := 5 },
   { name := "avg_grade", value := 80, shap_value := 4 },
   { name := "forum_posts", value := 3, shap_value := 3 },
   { name := "login_count", value := 7, shap_value := 2 },
   { name := "session_time", value := 30, shap_value := 1 }]

/-- C7 counterexample: when all five top features contribute positively,
`confidence_factors` receives five entries — the lists are NOT capped at
3 (only the loop bound of 5 applies; the cap of 3 exists solely inside
the natural-language sentence). -/
theorem confidence_factors_not_capped_at_3 :
    ((generate_explanation five_positive_impacts).2.1).length = 5
  ∧ ¬ ((generate_explanation five_positive_impacts).2.1).length ≤ 3 := by
  have h : ((generate_explanation five_positive_impacts).2.1).length = 5 := rfl
  exact ⟨h, by rw [h]; omega⟩

/-- C7 amended: `confidence_factors` is built from the positive-SHAP
subset of the top 5 impacts and `risk_factors` from the non-positive
subset of the top 5 (a zero contribution lands in `risk_factors`), so
each list has at most 5 entries (not 3); every entry is the humanized
feature name (underscores to spaces, title case) followed by the
feature's literal value. -/
theorem explanation_factors_structure (impacts : List FeatureImpact) (s t : String)
    (hs : s ∈ (generate_explanation impacts).2.1)
    (ht : t ∈ (generate_explanation impacts).2.2) :
    ((generate_explanation impacts).2.1).length ≤ 5
  ∧ ((generate_explanation impacts).2.2).length ≤ 5
  ∧ (∃ fi ∈ impacts, 0 < fi.shap_value ∧ s = humanize fi.name ++ ": " ++ fmtNum fi.value)
  ∧ (∃ fi ∈ impacts, ¬ 0 < fi.shap_value ∧ t = humanize fi.name ++ ": " ++ fmtNum fi.value) := by
  have hlen : ∀ (p : FeatureImpact → Bool),
      (((sortByAbsShap impacts).take 5).filter p).length ≤ 5 := by
    intro p
    calc (((sortByAbsShap impacts).take 5).filter p).length
        ≤ ((sortByAbsShap impacts).take 5).length := List.length_filter_le _ _
      _ ≤ 5 := List.length_take_le 5 (sortByAbsShap impacts)
  refine ⟨?_, ?_, ?_, ?_⟩
  · simpa [generate_explanation] using hlen _
  · simpa [generate_explanation] using hlen _
  · simp only [generate_explanation, List.mem_map] at hs
    obtain ⟨fi, hfi, rfl⟩ := hs
    rw [List.mem_filter] at hfi
    refine ⟨fi, ?_, ?_, rfl⟩
    · exact mem_sortByAbsShap.mp (List.mem_of_mem_take hfi.1)
    · simpa using hfi.2
  · simp only [generate_explanation, List.mem_map] at ht
    obtain ⟨fi, hfi, rfl⟩ := ht
    rw [List.mem_filter] at hfi
    refine ⟨fi, ?_, ?_, rfl⟩
    · exact mem_sortByAbsShap.mp (List.mem_of_mem_take hfi.1)
    · simpa using hfi.2

/-- Concrete input for the C7 witness: one positive and one negative
contribution. -/
def mixed_impacts : List FeatureImpact :=
  [{ name := "avg_grade", value := 80, shap_value := 2 },
   { name := "low_engagement", value := 1, shap_value := -1 }]

/-- Witness for `explanation_factors_structure` on `mixed_impacts`. -/
theorem explanation_factors_structure_witness :
    (humanize "avg_grade" ++ ": " ++ fmtNum 80)
      ∈ (generate_explanation mixed_impacts).2.1
  ∧ (humanize "low_engagement" ++ ": " ++ fmtNum 1)
      ∈ (generate_explanation mixed_impacts).2.2
  ∧ (((generate_explanation mixed_impacts).2.1).length ≤ 5
     ∧ ((generate_explanation mixed_impacts).2.2).length ≤ 5
     ∧ (∃ fi ∈ mixed_impacts, 0 < fi.shap_value
          ∧ humanize "avg_grade" ++ ": " ++ fmtNum 80
              = humanize fi.name ++ ": " ++ fmtNum fi.value)
     ∧ (∃ fi ∈ mixed_impacts, ¬ 0 < fi.shap_value
          ∧ humanize "low_engagement" ++ ": " ++ fmtNum 1
              = humanize fi.name ++ ": " ++ fmtNum fi.value)) := by
  have hs : (humanize "avg_grade" ++ ": " ++ fmtNum 80)
      ∈ (generate_explanation mixed_impacts).2.1 := by
    rw [show (generate_explanation mixed_impacts).2.1
          = [humanize "avg_grade" ++ ": " ++ fmtNum 80] from rfl]
    exact List.mem_singleton.mpr rfl
  have ht : (humanize "low_engagement" ++ ": " ++ fmtNum 1)
      ∈ (generate_explanation mixed_impacts).2.2 := by
    rw [show (generate_explanation mixed_impacts).2.2
          = [humanize "low_engagement" ++ ": " ++ fmtNum 1] from rfl]
    exact List.mem_singleton.mpr rfl
  exact ⟨hs, ht, explanation_factors_structure mixed_impacts _ _ hs ht⟩

/-! ## C8 — graceful degradation of the explanation -/

/-- C8: when the SHAP explainer failed to initialize (`none`) or the
attribution computation raises (`some (.error e)`), `MLService.predict`
still returns the full prediction — class, probability, all class
probabilities, risk level — and the explanation degrades to the bare
predicted-class/probability sentence with empty SHAP values, empty top
features and empty factor lists; the failure never escapes `predict`
(the embedding is a total function). -/
theorem predict_degrades_gracefully (labels feature_names : List String)
    (features : List (String × ℚ)) (proba : List ℚ)
    (explainer : Option (Except String (List ℚ)))
    (h : explainer = none ∨ ∃ e, explainer = some (.error e)) :
    MLService_predict labels feature_names features proba explainer =
      { predicted_class := labels.getD (np_argmax proba) ""
        probability := proba.getD (np_argmax proba) 0
        probabilities := labels.zip proba
        risk_level := calculate_risk_level (labels.getD (np_argmax proba) "")
                        (proba.getD (np_argmax proba) 0)
        shap_values := []
        top_features := []
        natural_language_explanation :=
          bare_explanation (labels.getD (np_argmax proba) "")
            (proba.getD (np_argmax proba) 0)
        confidence_factors := []
        risk_factors := [] } := by
  rcases h with h | ⟨e, h⟩ <;> subst h <;> rfl

/-- Witness for `predict_degrades_gracefully` with a missing explainer. -/
theorem predict_degrades_gracefully_witness :
    MLService_predict ["Pass", "Fail"] ["avg_grade"] [("avg_grade", 50)] [3/10, 7/10] none =
      { predicted_class := (["Pass", "Fail"] : List String).getD (np_argmax [3/10, 7/10]) ""
        probability := ([3/10, 7/10] : List ℚ).getD (np_argmax [3/10, 7/10]) 0
        probabilities := (["Pass", "Fail"] : List String).zip [3/10, 7/10]
        risk_level := calculate_risk_level
          ((["Pass", "Fail"] : List String).getD (np_argmax [3/10, 7/10]) "")
          (([3/10, 7/10] : List ℚ).getD (np_argmax [3/10, 7/10]) 0)
        shap_values := []
        top_features := []
        natural_language_explanation :=
          bare_explanation ((["Pass", "Fail"] : List String).getD (np_argmax [3/10, 7/10]) "")
            (([3/10, 7/10] : List ℚ).getD (np_argmax [3/10, 7/10]) 0)
        confidence_factors := []
        risk_factors := [] } :=
  predict_degrades_gracefully ["Pass", "Fail"] ["avg_grade"] [("avg_grade", 50)]
    [3/10, 7/10] none (Or.inl rfl)

/-! ## Pipeline lemmas -/

lemma mem_catMap {α β : Type} {f : α → List β} {l : List α} {b : β} :
    b ∈ catMap f l ↔ ∃ x ∈ l, b ∈ f x := by
  induction l with
  | nil => simp [catMap]
  | cons x xs ih => simp [catMap, ih]

lemma map_catMap {α β γ : Type} (g : β → γ) (f : α → List β) (l : List α) :
    (catMap f l).map g = catMap (fun x => (f x).map g) l := by
  induction l with
  | nil => rfl
  | cons x xs ih => simp [catMap, ih]

lemma catMap_congr {α β : Type} {f g : α → List β} (h : ∀ x, f x = g x) (l : List α) :
    catMap f l = catMap g l := by
  induction l with
  | nil => rfl
  | cons x xs ih => simp [catMap, h, ih]

/-- Every engineered row carries the `engagement_score_lag_7days` value
loaded for the score row at its position (the column is passed through,
not recomputed). -/
lemma engineer_features_lag7 (rows : List ScoreRow) (fr : FeatureRow)
    (h : fr ∈ engineer_features rows) :
    ∃ i, i < rows.length
      ∧ fr.engagement_score_lag_7days = (rows.getD i default).engagement_score_lag_7days := by
  simp only [engineer_features, List.mem_map, List.mem_range] at h
  obtain ⟨i, hi, rfl⟩ := h
  exact ⟨i, hi, rfl⟩

/-- If every loaded row of a student has a NULL 7-day lag, the dropna
step of `prepare_ml_data` eliminates the student entirely. -/
lemma prepare_ml_rows_eq_nil (rows : List ScoreRow)
    (hlag : ∀ i, i < rows.length →
      (rows.getD i default).engagement_score_lag_7days = none) :
    prepare_ml_rows rows = [] := by
  rw [prepare_ml_rows, List.filter_eq_nil_iff]
  intro fr hfr
  obtain ⟨i, hi, hproj⟩ := engineer_features_lag7 rows fr hfr
  have h7 : fr.engagement_score_lag_7days = none := by
    rw [hproj]
    exact hlag i hi
  simp [h7]

lemma getD_zero_mem {α : Type} [Inhabited α] (l : List α) (h : l ≠ []) :
    l.getD 0 default ∈ l := by
  cases l with
  | nil => exact absurd rfl h
  | cons x xs => simp

/-! ## C5 — students with short histories -/

/-- A loaded score row of a student whose history is too short for the
7-day lag: the nullable lag/rolling columns are NULL, as the data-model
invariant prescribes for fewer than 7 prior observations. -/
def shortHistoryRow (d : ℕ) : ScoreRow :=
  { date := d, login_score := 50, session_score := 50, interaction_score := 50,
    forum_score := 50, assignment_score := 50, engagement_score := 25,
    engagement_trend := "Stable", engagement_score_lag_1day := none,
    engagement_score_lag_7days := none, rolling_avg_7days := none,
    rolling_avg_30days := none }

/-- Three days of history for the C5 counterexample student. -/
def shortHistoryRows : List ScoreRow := [shortHistoryRow 1, shortHistoryRow 2, shortHistoryRow 3]

/-- A concrete deterministic classifier (any estimator obeying the
`fit`/`predict_proba` contract would do). -/
def constHalfFit : List (XRow × Bool) → TrainedModel :=
  fun _ => { proba := fun _ => 1/2, importance := [] }

/-- C5 counterexample: the student with 3 days of history contributes
zero rows to the training set, but — contrary to the claim — the batch
pipeline also produces NO prediction for that student:
`generate_predictions` scores exactly the dropna-filtered rows. -/
theorem short_history_no_prediction :
    training_set [(1, shortHistoryRows)] = []
  ∧ run_pipeline constHalfFit [(1, shortHistoryRows)] 0 = [] := by
  constructor <;> rfl

/-- C5 amended: a student whose history is shorter than 8 days (so the
7-day lag column is NULL on every row) contributes zero rows to the
training set AND receives no prediction at all from the batch pipeline;
the fillna-as-zero fallback applies only to the non-critical features of
rows that survive the dropna filter. -/
theorem short_history_contributes_nothing (fit : List (XRow × Bool) → TrainedModel)
    (sid : ℕ) (rows : List ScoreRow) (now : ℕ)
    (hshort : rows.length < 8)
    (hlag : ∀ i, i < rows.length → i < 7 →
      (rows.getD i default).engagement_score_lag_7days = none) :
    training_set [(sid, rows)] = [] ∧ run_pipeline fit [(sid, rows)] now = [] := by
  have hlag7 : ∀ i, i < rows.length →
      (rows.getD i default).engagement_score_lag_7days = none :=
    fun i hi => hlag i hi (by omega)
  have hnil := prepare_ml_rows_eq_nil rows hlag7
  constructor
  · simp [training_set, catMap, hnil]
  · simp [run_pipeline, catMap, hnil]

/-- Witness for `short_history_contributes_nothing` on the 3-day
student. -/
theorem short_history_contributes_nothing_witness :
    shortHistoryRows.length < 8
  ∧ (∀ i, i < shortHistoryRows.length → i < 7 →
      (shortHistoryRows.getD i default).engagement_score_lag_7days = none)
  ∧ (training_set [(2, shortHistoryRows)] = []
     ∧ run_pipeline constHalfFit [(2, shortHistoryRows)] 5 = []) := by
  have hshort : shortHistoryRows.length < 8 := by simp [shortHistoryRows]
  have hlag : ∀ i, i < shortHistoryRows.length → i < 7 →
      (shortHistoryRows.getD i default).engagement_score_lag_7days = none := by
    intro i hi _
    simp only [shortHistoryRows, List.length_cons, List.length_nil] at hi
    interval_cases i <;> rfl
  exact ⟨hshort, hlag,
    short_history_contributes_nothing constHalfFit 2 shortHistoryRows 5 hshort hlag⟩

/-! ## C9 — determinism of the batch pipeline -/

lemma stripTimestamp_mkPrediction (sid : ℕ) (m : TrainedModel) (now : ℕ) (fr : FeatureRow) :
    stripTimestamp (mkPrediction sid m now fr) = mkPrediction sid m 0 fr := rfl

/-- C9: the batch pipeline is deterministic in everything but the
`created_at` timestamp — two runs over the same loaded data with the
same (seed-fixed, hence deterministic) estimator produce identical
prediction-record sets once `created_at` is erased, whatever the two
wall-clock times were. -/
theorem pipeline_deterministic (fit : List (XRow × Bool) → TrainedModel)
    (students : List (ℕ × List ScoreRow)) (t1 t2 : ℕ) :
    (run_pipeline fit students t1).map stripTimestamp
      = (run_pipeline fit students t2).map stripTimestamp := by
  simp only [run_pipeline, map_catMap, List.map_map]
  exact catMap_congr
    (fun sr => by simp [Function.comp_def, stripTimestamp_mkPrediction]) students

/-! ## C10 — the confidence-score invariant -/

lemma half_le_max_p (p : ℚ) (h0 : 0 ≤ p) (h1 : p ≤ 1) :
    1/2 ≤ max p (1 - p) ∧ max p (1 - p) ≤ 1 := by
  constructor
  · rcases le_total p (1/2) with h | h
    · exact le_trans (by linarith) (le_max_right _ _)
    · exact le_trans h (le_max_left _ _)
  · exact max_le h1 (by linarith)

/-- C10: every record emitted by the batch pipeline has
`confidence_score = max(p, 1-p)` for its own `risk_probability = p`, so
as long as the estimator honours the `predict_proba` contract
(probabilities in [0,1]) the confidence score lies in [1/2, 1] — a
strictly tighter range than the declared [0,1]. -/
theorem confidence_score_invariant (fit : List (XRow × Bool) → TrainedModel)
    (students : List (ℕ × List ScoreRow)) (now : ℕ) (r : PredictionRecord)
    (hm : ∀ x : XRow, 0 ≤ (fit (training_set students)).proba x
          ∧ (fit (training_set students)).proba x ≤ 1)
    (hr : r ∈ run_pipeline fit students now) :
    r.confidence_score = max r.risk_probability (1 - r.risk_probability)
  ∧ 1/2 ≤ r.confidence_score ∧ r.confidence_score ≤ 1 := by
  simp only [run_pipeline] at hr
  rw [mem_catMap] at hr
  obtain ⟨sr, hsr, hr2⟩ := hr
  rw [List.mem_map] at hr2
  obtain ⟨fr, hfr, rfl⟩ := hr2
  have hp := hm (toXRow fr)
  have hb := half_le_max_p _ hp.1 hp.2
  exact ⟨rfl, hb.1, hb.2⟩

/-- A loaded score row with enough history for the training-critical
columns (used by the C10 witness). -/
def fullHistoryRow : ScoreRow :=
  { date := 20, login_score := 60, session_score := 50, interaction_score := 40,
    forum_score := 30, assignment_score := 70, engagement_score := 45,
    engagement_trend := "Stable", engagement_score_lag_1day := some 50,
    engagement_score_lag_7days := some 50, rolling_avg_7days := some 48,
    rolling_avg_30days := some 52 }

/-- Input for the C10 witness. -/
def oneFullStudent : List (ℕ × List ScoreRow) := [(1, [fullHistoryRow])]

/-- A concrete classifier answering probability 3/10 everywhere. -/
def constThreeTenthsFit : List (XRow × Bool) → TrainedModel :=
  fun _ => { proba := fun _ => 3/10, importance := [("engagement_score", 1/2)] }

/-- Witness for `confidence_score_invariant` on a concrete record. -/
theorem confidence_score_invariant_witness :
    ((run_pipeline constThreeTenthsFit oneFullStudent 0).getD 0 default).confidence_score
        = max ((run_pipeline constThreeTenthsFit oneFullStudent 0).getD 0 default).risk_probability
            (1 - ((run_pipeline constThreeTenthsFit oneFullStudent 0).getD 0 default).risk_probability)
  ∧ 1/2 ≤ ((run_pipeline constThreeTenthsFit oneFullStudent 0).getD 0 default).confidence_score
  ∧ ((run_pipeline constThreeTenthsFit oneFullStudent 0).getD 0 default).confidence_score ≤ 1 := by
  have hne : run_pipeline constThreeTenthsFit oneFullStudent 0 ≠ [] := by
    have hlen : (run_pipeline constThreeTenthsFit oneFullStudent 0).length = 1 := rfl
    intro h
    rw [h] at hlen
    simp at hlen
  exact confidence_score_invariant constThreeTenthsFit oneFullStudent 0 _
    (fun x => ⟨show (0:ℚ) ≤ 3/10 by norm_num, show (3:ℚ)/10 ≤ 1 by norm_num⟩)
    (getD_zero_mem _ hne)

end EduMind
